import Mathlib

/-!
Verification development for the Notion avatar generator server
(`server.py`).  The Flask handler, the upload validator, the style
converter and the startup sequence are embedded as executable Lean
functions; third-party library behaviour (PIL image decoding/encoding,
the generative-model endpoint, the filesystem) is passed in as explicit
parameters so the embedded code stays a faithful, pure translation of
the Python source.
-/

namespace NotionAvatar

/-- Raw bytes, as Python `bytes`: a list of byte values. -/
abbrev Bytes := List Nat

/-- A decoded PIL image, kept abstract as its pixel buffer. -/
abbrev Img := List Nat

/-- The behaviour of the PIL library used by `server.py`:
`openImage` models `Image.open` (which raises, carrying a message, on
bytes it cannot parse), `savePNG` models `img.save(path, 'PNG')`
(returning the bytes written to disk), and `toRGB` models the
`img.convert('RGB')` normalisation applied when the mode is not RGB
(it is the identity on images already in RGB mode). -/
structure PILCodec where
  openImage : Bytes → Except String Img
  savePNG : Img → Bytes
  toRGB : Img → Img

/-- `part.inline_data.data` of a response part: Python `bytes`, `str`,
or a value of an unexpected type (the final `else` branch of the
converter). -/
inductive InlineData where
  | bin (data : Bytes)
  | txt (data : String)
  | other
  deriving DecidableEq, Repr

/-- One element of `response.candidates[0].content.parts`: it may carry
truthy `inline_data` (`none` models both a missing attribute and a falsy
one) and may carry text. -/
structure Part where
  inline_data : Option InlineData
  text : Option String
  deriving DecidableEq, Repr

/-- An item of the `contents` list sent to
`client.models.generate_content`: a PIL image or a text prompt. -/
inductive ModelContent where
  | image (img : Img)
  | text (s : String)
  deriving DecidableEq, Repr

/-- `MAX_FILE_SIZE = 10 * 1024 * 1024  # 10MB` (server.py line 36). -/
def MAX_FILE_SIZE : Nat := 10 * 1024 * 1024

/-- `ALLOWED_EXTENSIONS = {'png', 'jpg', 'jpeg', 'gif', 'bmp', 'webp'}`
(server.py line 37). -/
def ALLOWED_EXTENSIONS : List String := ["png", "jpg", "jpeg", "gif", "bmp", "webp"]

/-- `filename.rsplit('.', 1)[1]` guarded by `'.' in filename`: the
characters after the last dot, or `none` when the name has no dot. -/
def after_last_dot : List Char → Option (List Char)
  | [] => none
  | c :: rest =>
    match after_last_dot rest with
    | some s => some s
    | none => if c = '.' then some rest else none

/-- `allowed_file` (server.py lines 89-92):
`'.' in filename and filename.rsplit('.', 1)[1].lower() in ALLOWED_EXTENSIONS`.
The `none` case of `after_last_dot` is exactly the failure of the
`'.' in filename` guard. -/
def allowed_file (filename : String) : Bool :=
  match after_last_dot filename.data with
  | none => false
  | some ext => ALLOWED_EXTENSIONS.contains (String.mk (ext.map Char.toLower))

/-- Value of one character of the standard base64 alphabet. -/
def b64Val (c : Char) : Option Nat :=
  if 'A' ≤ c ∧ c ≤ 'Z' then some (c.toNat - 65)
  else if 'a' ≤ c ∧ c ≤ 'z' then some (c.toNat - 97 + 26)
  else if '0' ≤ c ∧ c ≤ '9' then some (c.toNat - 48 + 52)
  else if c = '+' then some 62
  else if c = '/' then some 63
  else none

/-- Decoding of base64 character groups of four, with `=` padding
allowed only in the final group; any other shape raises in Python, so
here it is `none`. -/
def b64DecodeGroups : List Char → Option Bytes
  | [] => some []
  | c1 :: c2 :: c3 :: c4 :: rest =>
    match b64Val c1, b64Val c2 with
    | some v1, some v2 =>
      if c3 = '=' then
        if c4 = '=' ∧ rest = [] then some [v1 * 4 + v2 / 16] else none
      else
        match b64Val c3 with
        | some v3 =>
          if c4 = '=' then
            if rest = [] then some [v1 * 4 + v2 / 16, (v2 % 16) * 16 + v3 / 4] else none
          else
            match b64Val c4 with
            | some v4 =>
              match b64DecodeGroups rest with
              | some tl => some ((v1 * 4 + v2 / 16) :: ((v2 % 16) * 16 + v3 / 4) :: ((v3 % 4) * 64 + v4) :: tl)
              | none => none
            | none => none
        | none => none
    | _, _ => none
  | _ => none

/-- `base64.b64decode` on a string payload (server.py line 218):
decodes standard base64, `none` when the Python call would raise. -/
def b64decode (s : String) : Option Bytes :=
  b64DecodeGroups s.data

/-- The list comprehension of server.py lines 197-201: the
`inline_data.data` payloads of the parts that have truthy `inline_data`,
in response order. -/
def image_parts (parts : List Part) : List InlineData :=
  parts.filterMap Part.inline_data

/-- The payload-to-bytes step of server.py lines 213-222: binary data is
used directly, a string is base64-decoded, anything else (or a base64
failure, caught at line 227) yields no bytes. -/
def decode_image_data (d : InlineData) : Option Bytes :=
  match d with
  | .bin b => some b
  | .txt s => b64decode s
  | .other => none

/-- The bytes handed to `Image.open` by the converter for a given
response: the first payload of `image_parts`, decoded; `none` when there
is no payload or decoding fails. -/
def extract_image_bytes (parts : List Part) : Option Bytes :=
  match image_parts parts with
  | [] => none
  | d :: _ => decode_image_data d

/-- The fixed instruction text of server.py lines 101-170: the
multi-paragraph style prompt assembled in `convert_to_notion_style`,
verbatim. -/
def NOTION_PROMPT : String :=
  "STYLE REFERENCE EXAMPLES: The first 3 images show the EXACT Notion avatar style to replicate.

TASK: Convert the final photo into the same minimalist black and white avatar style as the reference examples.

CRITICAL: FACE AND HEAD ONLY
• Show ONLY the person's face and head - nothing below the neck
• Even if the source photo shows shoulders, chest, or body - ignore these parts
• Focus exclusively on facial features, hair, and head shape
• Create a head-and-shoulders composition but only draw the head part

STYLE REQUIREMENTS (match references exactly):
• Pure black lines on white background
• Clean, simple geometric shapes
• Minimalist cartoon illustration
• Square format (1:1 aspect ratio)
• Thick, bold black line weight (not thin lines)
• Strong contrast and bold styling

ANALYZE THE PERSON CAREFULLY:
• Look ONLY at what is actually visible in the photo
• Hair style, glasses, face shape, actual facial hair presence
• Do NOT assume or add features that aren't clearly visible

CONVERT FOLLOWING THESE RULES:

FACE:
• Simple oval/circle matching their actual face shape
• EYES: Be creative but accurate - use ovals, circles, or simple shapes that match their eye shape and expression. Can show eyelashes, eye direction, or subtle expressions if visible in source
• EYEBROWS: Match their actual eyebrow shape and thickness - can be straight lines, arches, or thick shapes depending on the person's real eyebrows
• Minimal nose indication (small line or dot)
• Simple curved line for mouth that reflects their expression
• Stay true to their actual facial structure and expressions

HAIR:
• Bold, solid black shapes with thick outlines
• Match their actual hair volume and style
• For curly hair: simple wavy shapes, not overly dense
• For straight hair: clean geometric shapes
• Keep hair proportionate and realistic to source
• Use thick black lines consistent with Notion style

FACIAL HAIR - CRITICAL RULE:
• ONLY add facial hair if it's CLEARLY visible in the source photo
• If the person appears clean-shaven, DO NOT add any beard or mustache
• If uncertain about facial hair presence, leave the face clean
• When facial hair IS present: use light, minimal black shapes

GENDER REPRESENTATION:
• Focus on accuracy over gender stereotypes
• Use subtle differences in face shape and features
• Don't over-emphasize masculine/feminine traits
• Eye and eyebrow styles should match the individual, not gender assumptions

ACCESSORIES:
• Glasses: Simple geometric frame shapes
• Keep essential identifying accessories

COMPOSITION:
• HEAD AND FACE ONLY - no clothing, no body parts
• If you must show a tiny bit of neck/collar area, keep it minimal
• Focus 95% on the face and hair

FINAL INSTRUCTION:
Create a clean, conservative Notion-style avatar that:
• Accurately represents ONLY what's visible in the source photo
• Uses subtle, proportionate styling - not heavy or exaggerated
• Preserves the person's actual identity without adding fictional elements
• Matches the reference style while staying true to the source image

REMEMBER: When in doubt, be conservative and accurate rather than stylized."

/-- The `contents` list assembled in server.py lines 172-183: the
reference images first, then the user image, then the text prompt. -/
def build_contents (refs : List Img) (user : Img) : List ModelContent :=
  (refs.map ModelContent.image) ++ [ModelContent.image user] ++ [ModelContent.text NOTION_PROMPT]

/-- Outcome of `convert_to_notion_style`: the Python function either
raises (`result = .error msg`, re-raised at line 245) or returns an
optional image; `requests` records every `contents` list it sent to
`client.models.generate_content`, in order. -/
structure ConvOutcome where
  result : Except String (Option Img)
  requests : List (List ModelContent)
  deriving Repr

/-- The image-processing block of server.py lines 206-231: opens the
first payload as an image; a base64 failure, an unexpected payload type
or an `Image.open` failure is caught (line 227) and yields `None`. -/
def process_image_data (codec : PILCodec) (d : InlineData) : Option Img :=
  match decode_image_data d with
  | none => none
  | some bytes =>
    match codec.openImage bytes with
    | .error _ => none
    | .ok img => some img

/-- `convert_to_notion_style` (server.py lines 94-245), parameterised by
the PIL behaviour and by the generative-model endpoint `generate`
(modelling the blocking call `client.models.generate_content`, which
either returns `response.candidates[0].content.parts` or raises).
Raises when the client is not initialized; sends one combined request;
re-raises an upstream failure; returns `none` when the response carries
no usable image. -/
def convert_to_notion_style (codec : PILCodec) (client : Bool)
    (reference_images : List Img)
    (generate : List ModelContent → Except String (List Part))
    (user_image : Img) : ConvOutcome :=
  if client = false then
    { result := .error "GenAI client not initialized", requests := [] }
  else
    let contents := build_contents reference_images user_image
    match generate contents with
    | .error e => { result := .error e, requests := [contents] }
    | .ok parts =>
      match image_parts parts with
      | [] => { result := .ok none, requests := [contents] }
      | d :: _ => { result := .ok (process_image_data codec d), requests := [contents] }

/-- JSON body of a `/convert` response: an `{error: msg}` object or the
success object of server.py lines 315-323. -/
inductive RespBody where
  | error (msg : String)
  | success (fileName : String) (filePath : String) (mimeType : String)
  deriving DecidableEq, Repr

/-- The uploaded file of the multipart `image` field: its filename and
its content bytes (`file_size` is the length of the content). -/
structure FileUpload where
  filename : String
  content : Bytes
  deriving Repr

/-- Process-wide server state read by the handler: whether `init_genai`
succeeded and the preloaded reference image list. -/
structure ServerState where
  client : Bool
  reference_images : List Img
  deriving Repr

/-- Result of one `/convert` request: HTTP status and JSON body,
the upstream requests issued while handling it, the file written to the
output directory (name and bytes), if any, and the reference-image list
as it stands after the request (the handler never assigns the global). -/
structure ConvertResult where
  status : Nat
  body : RespBody
  requests : List (List ModelContent)
  saved : Option (String × Bytes)
  finalRefs : List Img
  deriving Repr

/-- `f"notion_avatar_{timestamp}.png"` (server.py line 309). -/
def output_filename (timestamp : String) : String :=
  "notion_avatar_" ++ timestamp ++ ".png"

/-- The `/convert` handler `convert_image` (server.py lines 263-331),
parameterised by PIL, the server state, the upstream endpoint, the
current timestamp string and the request (`none` models a request whose
files dict has no `image` key).  The checks run in source order: client
initialization, file presence, non-empty filename, extension, size;
then the upload is decoded, converted, and the result saved. -/
def convert_image (codec : PILCodec) (st : ServerState)
    (generate : List ModelContent → Except String (List Part))
    (timestamp : String) (image_file : Option FileUpload) : ConvertResult :=
  if st.client = false then
    { status := 500, body := .error "GenAI client not initialized",
      requests := [], saved := none, finalRefs := st.reference_images }
  else
    match image_file with
    | none =>
      { status := 400, body := .error "No image file uploaded",
        requests := [], saved := none, finalRefs := st.reference_images }
    | some file =>
      if file.filename = "" then
        { status := 400, body := .error "No file selected",
          requests := [], saved := none, finalRefs := st.reference_images }
      else if allowed_file file.filename = false then
        { status := 400,
          body := .error "Invalid file type. Please upload PNG, JPG, JPEG, GIF, BMP, or WebP",
          requests := [], saved := none, finalRefs := st.reference_images }
      else if file.content.length > MAX_FILE_SIZE then
        { status := 400, body := .error "File too large. Maximum size is 10MB",
          requests := [], saved := none, finalRefs := st.reference_images }
      else
        match codec.openImage file.content with
        | .error e =>
          { status := 500, body := .error ("Error processing image: " ++ e),
            requests := [], saved := none, finalRefs := st.reference_images }
        | .ok img =>
          let user_image := codec.toRGB img
          let conv := convert_to_notion_style codec st.client
            st.reference_images generate user_image
          match conv.result with
          | .error e =>
            { status := 500, body := .error ("Error processing image: " ++ e),
              requests := conv.requests, saved := none, finalRefs := st.reference_images }
          | .ok none =>
            { status := 500, body := .error "Failed to generate avatar",
              requests := conv.requests, saved := none, finalRefs := st.reference_images }
          | .ok (some generated) =>
            let fn := output_filename timestamp
            { status := 200,
              body := .success fn ("/outputs/" ++ fn) "image/png",
              requests := conv.requests,
              saved := some (fn, codec.savePNG generated),
              finalRefs := st.reference_images }

/-- `init_genai` (server.py lines 46-60): fails when the
`GEMINI_API_KEY` environment variable is unset or empty (both falsy in
Python), otherwise succeeds exactly when the `genai.Client` constructor
does (`constructOk`). -/
def init_genai (gemini_api_key : Option String) (constructOk : Bool) : Bool :=
  match gemini_api_key with
  | none => false
  | some k => if k = "" then false else constructOk

/-- The three fixed reference paths of server.py lines 67-71. -/
def ref_paths : List String :=
  ["reference-avatar-2.png", "reference-avatar-3.png", "reference-image-6.png"]

/-- `load_reference_images` (server.py lines 62-87), over a filesystem
`fs` mapping a path to its loaded image (`none` when the file is missing
or fails to load — both cases are skipped with a log line).  Each loaded
image is normalised to RGB. -/
def load_reference_images (codec : PILCodec) (fs : String → Option Img) : List Img :=
  ref_paths.filterMap (fun p => (fs p).map codec.toRGB)

/-- Outcome of the `__main__` block: the process exits with a code
before serving, or serves on a port. -/
inductive MainOutcome where
  | exited (code : Nat)
  | serving (port : Nat)
  deriving DecidableEq, Repr

/-- Python `int()` on a decimal numeral string (the sign and whitespace
forms `int` also accepts are not exercised here); `none` models the
`ValueError` raised on anything else. -/
def int_of_string (s : String) : Option Nat :=
  if s.data ≠ [] ∧ s.data.all Char.isDigit then
    some (s.data.foldl (fun n c => n * 10 + (c.toNat - 48)) 0)
  else none

/-- The `__main__` block (server.py lines 338-354): exits with status 1
when `init_genai` fails, otherwise reads
`int(os.getenv('FLASK_PORT', 5000))` (an unparsable override raises an
uncaught `ValueError`, modelled as a nonzero exit) and serves. -/
def main_startup (gemini_api_key : Option String) (flask_port : Option String)
    (constructOk : Bool) : MainOutcome :=
  if init_genai gemini_api_key constructOk = false then
    .exited 1
  else
    match flask_port with
    | none => .serving 5000
    | some s =>
      match int_of_string s with
      | some p => .serving p
      | none => .exited 1

/-! ## Theorems -/

/-- A dotless character list has no part after a last dot. -/
theorem after_last_dot_eq_none (cs : List Char) (h : '.' ∉ cs) :
    after_last_dot cs = none := by
  induction cs with
  | nil => rfl
  | cons c rest ih =>
    have hc : ¬ c = '.' := fun hc => h (by simp [hc])
    have hr : '.' ∉ rest := fun hm => h (List.mem_cons_of_mem _ hm)
    simp [after_last_dot, ih hr, hc]

/-- C9: the extension check looks only at the substring after the last
dot: a filename with no dot is always rejected (so the bare name "png"
is rejected), "a.exe.png" is accepted, and "a.png.exe" is rejected. -/
theorem allowed_file_last_suffix :
    (∀ s : String, '.' ∉ s.data → allowed_file s = false) ∧
    allowed_file "png" = false ∧
    allowed_file "a.exe.png" = true ∧
    allowed_file "a.png.exe" = false := by
  refine ⟨fun s h => ?_, by decide, by decide, by decide⟩
  simp [allowed_file, after_last_dot_eq_none s.data h]

/-- Witness for C9 at the concrete dotless filename "png". -/
theorem allowed_file_last_suffix_witness :
    allowed_file "png" = false :=
  allowed_file_last_suffix.1 "png" (by decide)

/-- C7: with an initialized client, the converter issues exactly one
request to the model, whose contents are the reference images in their
loaded order, then the user image, then the fixed instruction text. -/
theorem single_combined_request (codec : PILCodec) (refs : List Img) (u : Img)
    (generate : List ModelContent → Except String (List Part)) :
    (convert_to_notion_style codec true refs generate u).requests
      = [refs.map ModelContent.image ++ [ModelContent.image u] ++ [ModelContent.text NOTION_PROMPT]] := by
  show (convert_to_notion_style codec true refs generate u).requests = [build_contents refs u]
  unfold convert_to_notion_style
  simp only [Bool.true_eq_false, if_false]
  cases generate (build_contents refs u) with
  | error e => rfl
  | ok parts => cases h : image_parts parts <;> simp only [h]

/-- C6: with the API key unset (or empty) initialization fails and the
process exits with status 1, serving nothing; with a key set and the
client constructed, the port is the FLASK_PORT override when parsable
and 5000 by default. -/
theorem startup_config :
    (∀ ok : Bool, init_genai none ok = false) ∧
    (∀ fp ok, main_startup none fp ok = MainOutcome.exited 1) ∧
    (∀ fp ok, main_startup (some "") fp ok = MainOutcome.exited 1) ∧
    (∀ k : String, k ≠ "" → main_startup (some k) none true = MainOutcome.serving 5000) ∧
    (∀ (k s : String) (p : Nat), k ≠ "" → int_of_string s = some p →
      main_startup (some k) (some s) true = MainOutcome.serving p) := by
  refine ⟨fun ok => rfl, fun fp ok => rfl, ?_, ?_, ?_⟩
  · intro fp ok
    simp [main_startup, init_genai]
  · intro k hk
    simp [main_startup, init_genai, hk]
  · intro k s p hk hs
    simp [main_startup, init_genai, hk, hs]

/-- Witness for C6 at the concrete key "key" and port string "8080". -/
theorem startup_config_witness :
    main_startup (some "key") none true = MainOutcome.serving 5000 ∧
    main_startup (some "key") (some "8080") true = MainOutcome.serving 8080 :=
  ⟨startup_config.2.2.2.1 "key" (by decide),
   startup_config.2.2.2.2 "key" "8080" 8080 (by decide) (by rfl)⟩

/-- A PIL behaviour where decoding and encoding are the identity on the
byte buffer, for concrete instantiations. -/
def idCodec : PILCodec :=
  { openImage := fun b => Except.ok b, savePNG := fun img => img, toRGB := fun img => img }

/-- An upstream endpoint that always returns the given parts. -/
def constResponse (parts : List Part) : List ModelContent → Except String (List Part) :=
  fun _ => Except.ok parts

/-- An upstream endpoint that always raises with the given message. -/
def failResponse (msg : String) : List ModelContent → Except String (List Part) :=
  fun _ => Except.error msg

/-- An accepted filename is never empty (the empty string has no dot). -/
theorem filename_ne_empty_of_allowed (s : String) (h : allowed_file s = true) :
    ¬ s = "" := by
  intro he
  subst he
  exact absurd h (by decide)

/-- C1: the converter collects the inline payloads in response order and
uses only the first: the extracted bytes are the first payload decoded
(binary payloads taken directly, string payloads base64-decoded), and
every later payload is ignored, whatever it is. -/
theorem first_payload_only (codec : PILCodec) (refs : List Img) (u : Img)
    (ps qs : List Part) (p : Part) (d : InlineData)
    (hps : image_parts ps = []) (hp : p.inline_data = some d) :
    extract_image_bytes (ps ++ p :: qs) = decode_image_data d ∧
    (convert_to_notion_style codec true refs (constResponse (ps ++ p :: qs)) u).result
      = Except.ok (process_image_data codec d) ∧
    (∀ b : Bytes, decode_image_data (InlineData.bin b) = some b) ∧
    (∀ s : String, decode_image_data (InlineData.txt s) = b64decode s) := by
  have hps2 : List.filterMap Part.inline_data ps = [] := hps
  have himg : image_parts (ps ++ p :: qs) = d :: image_parts qs := by
    simp [image_parts, List.filterMap_append, List.filterMap_cons, hps2, hp]
  refine ⟨?_, ?_, fun b => rfl, fun s => rfl⟩
  · simp [extract_image_bytes, himg]
  · simp [convert_to_notion_style, constResponse, himg]

/-- Witness for C1: a text part is skipped, the base64-string payload
"AAEC" decides the result, and the later binary payload is ignored. -/
theorem first_payload_only_witness :
    image_parts [{ inline_data := none, text := some "commentary" }] = [] ∧
    extract_image_bytes
        ([{ inline_data := none, text := some "commentary" }] ++
          { inline_data := some (InlineData.txt "AAEC"), text := none } ::
            [{ inline_data := some (InlineData.bin [9]), text := none }])
      = decode_image_data (InlineData.txt "AAEC") ∧
    decode_image_data (InlineData.txt "AAEC") = some [0, 1, 2] :=
  ⟨by decide,
   (first_payload_only idCodec [] []
      [{ inline_data := none, text := some "commentary" }]
      [{ inline_data := some (InlineData.bin [9]), text := none }]
      { inline_data := some (InlineData.txt "AAEC"), text := none }
      (InlineData.txt "AAEC") (by decide) rfl).1,
   by decide⟩

/-- C3: a request whose uploaded filename has no allow-listed extension
never reaches the model endpoint (no upstream request is issued, in any
server state), and with an initialized client it is answered 400. -/
theorem invalid_extension_no_upstream (codec : PILCodec) (st : ServerState)
    (generate : List ModelContent → Except String (List Part))
    (ts : String) (f : FileUpload)
    (hext : allowed_file f.filename = false) :
    (convert_image codec st generate ts (some f)).requests = [] ∧
    (st.client = true → (convert_image codec st generate ts (some f)).status = 400) := by
  unfold convert_image
  cases hc : st.client with
  | false => simp
  | true =>
    by_cases hn : f.filename = "" <;> simp [hn, hext]

/-- Witness for C3 at the concrete upload "avatar.txt". -/
theorem invalid_extension_no_upstream_witness :
    (convert_image idCodec { client := true, reference_images := [] }
        (constResponse []) "ts" (some { filename := "avatar.txt", content := [] })).requests = [] ∧
    (convert_image idCodec { client := true, reference_images := [] }
        (constResponse []) "ts" (some { filename := "avatar.txt", content := [] })).status = 400 :=
  ⟨(invalid_extension_no_upstream idCodec _ _ "ts" _ (by decide)).1,
   (invalid_extension_no_upstream idCodec _ _ "ts" _ (by decide)).2 rfl⟩

/-- C10: the handler checks run in source order — an uninitialized
client yields the 500 before any input validation (for every request,
however malformed), then come file presence, non-empty filename,
extension and size, so a request that is both oversized and of a
disallowed type gets the invalid-file-type 400. -/
theorem check_order (codec : PILCodec) (st : ServerState)
    (generate : List ModelContent → Except String (List Part)) (ts : String) :
    (∀ req, st.client = false →
      convert_image codec st generate ts req
        = { status := 500, body := RespBody.error "GenAI client not initialized",
            requests := [], saved := none, finalRefs := st.reference_images }) ∧
    (st.client = true →
      convert_image codec st generate ts none
        = { status := 400, body := RespBody.error "No image file uploaded",
            requests := [], saved := none, finalRefs := st.reference_images }) ∧
    (∀ f : FileUpload, st.client = true → f.filename = "" →
      convert_image codec st generate ts (some f)
        = { status := 400, body := RespBody.error "No file selected",
            requests := [], saved := none, finalRefs := st.reference_images }) ∧
    (∀ f : FileUpload, st.client = true → ¬ f.filename = "" → allowed_file f.filename = false →
      convert_image codec st generate ts (some f)
        = { status := 400,
            body := RespBody.error "Invalid file type. Please upload PNG, JPG, JPEG, GIF, BMP, or WebP",
            requests := [], saved := none, finalRefs := st.reference_images }) := by
  refine ⟨fun req hc => ?_, fun hc => ?_, fun f hc hn => ?_, fun f hc hn hext => ?_⟩
  · unfold convert_image
    simp [hc]
  · unfold convert_image
    simp [hc]
  · unfold convert_image
    simp [hc, hn]
  · unfold convert_image
    simp [hc, hn, hext]

/-- Witness for C10: an uninitialized client answers 500 to an oversized
upload of a disallowed type, and an initialized one answers it with the
invalid-file-type 400 even though it is also oversized. -/
theorem check_order_witness :
    (convert_image idCodec { client := false, reference_images := [] }
        (constResponse []) "ts"
        (some { filename := "a.txt", content := List.replicate (MAX_FILE_SIZE + 1) 0 })).status = 500 ∧
    convert_image idCodec { client := true, reference_images := [] }
        (constResponse []) "ts"
        (some { filename := "a.txt", content := List.replicate (MAX_FILE_SIZE + 1) 0 })
      = { status := 400,
          body := RespBody.error "Invalid file type. Please upload PNG, JPG, JPEG, GIF, BMP, or WebP",
          requests := [], saved := none, finalRefs := [] } :=
  ⟨by rw [(check_order idCodec _ (constResponse []) "ts").1 _ rfl],
   (check_order idCodec _ (constResponse []) "ts").2.2.2 _ rfl (by decide) (by decide)⟩

/-- C4: with an initialized client and an upload whose extension is
allow-listed, a size at or under `MAX_FILE_SIZE` passes validation (no
400 is possible), a size strictly over it is rejected with the
file-too-large 400, and an oversized upload is answered 400 whatever its
filename is. -/
theorem size_threshold (codec : PILCodec) (st : ServerState)
    (generate : List ModelContent → Except String (List Part))
    (ts : String) (f : FileUpload)
    (hinit : st.client = true) :
    (allowed_file f.filename = true → f.content.length ≤ MAX_FILE_SIZE →
      ¬ (convert_image codec st generate ts (some f)).status = 400) ∧
    (allowed_file f.filename = true → MAX_FILE_SIZE < f.content.length →
      convert_image codec st generate ts (some f)
        = { status := 400, body := RespBody.error "File too large. Maximum size is 10MB",
            requests := [], saved := none, finalRefs := st.reference_images }) ∧
    (MAX_FILE_SIZE < f.content.length →
      (convert_image codec st generate ts (some f)).status = 400) := by
  refine ⟨fun hext hsize => ?_, fun hext hsize => ?_, fun hsize => ?_⟩
  · have hn := filename_ne_empty_of_allowed f.filename hext
    unfold convert_image
    simp only [hinit, Bool.true_eq_false, if_false]
    rw [if_neg hn, hext]
    simp only [Bool.true_eq_false, if_false]
    rw [if_neg (Nat.not_lt.mpr hsize)]
    cases codec.openImage f.content with
    | error e => simp
    | ok ui =>
      cases hr : (convert_to_notion_style codec true st.reference_images generate (codec.toRGB ui)).result with
      | error e => simp [hr]
      | ok o => cases o <;> simp [hr]
  · have hn := filename_ne_empty_of_allowed f.filename hext
    unfold convert_image
    simp only [hinit, Bool.true_eq_false, if_false]
    rw [if_neg hn, hext]
    simp only [Bool.true_eq_false, if_false]
    rw [if_pos hsize]
  · by_cases hn : f.filename = ""
    · unfold convert_image
      simp [hinit, hn]
    · by_cases hext : allowed_file f.filename = true
      · unfold convert_image
        simp only [hinit, Bool.true_eq_false, if_false]
        rw [if_neg hn, hext]
        simp only [Bool.true_eq_false, if_false]
        rw [if_pos hsize]
      · unfold convert_image
        simp [hinit, hn, Bool.not_eq_true _ ▸ hext]

/-- Witness for C4 at a 1-byte and a `MAX_FILE_SIZE + 1`-byte upload. -/
theorem size_threshold_witness :
    ¬ (convert_image idCodec { client := true, reference_images := [] }
        (constResponse []) "ts" (some { filename := "a.png", content := [0] })).status = 400 ∧
    (convert_image idCodec { client := true, reference_images := [] }
        (constResponse []) "ts"
        (some { filename := "a.png", content := List.replicate (MAX_FILE_SIZE + 1) 0 })).status = 400 :=
  ⟨(size_threshold idCodec _ (constResponse []) "ts" _ rfl).1 (by decide) (by decide),
   (size_threshold idCodec _ (constResponse []) "ts" _ rfl).2.2
     (by rw [List.length_replicate]; exact Nat.lt_succ_self _)⟩

/-- Converter evaluation: a successful upstream call with no inline
payload yields no result. -/
theorem convert_result_no_parts (codec : PILCodec) (refs : List Img)
    (generate : List ModelContent → Except String (List Part)) (u : Img)
    (parts : List Part)
    (hgen : generate (build_contents refs u) = Except.ok parts)
    (hparts : image_parts parts = []) :
    convert_to_notion_style codec true refs generate u
      = { result := Except.ok none, requests := [build_contents refs u] } := by
  unfold convert_to_notion_style
  simp only [Bool.true_eq_false, if_false, hgen, hparts]

/-- Converter evaluation: a successful upstream call whose first inline
payload is `d` yields the processed form of `d`. -/
theorem convert_result_first (codec : PILCodec) (refs : List Img)
    (generate : List ModelContent → Except String (List Part)) (u : Img)
    (parts : List Part) (d : InlineData) (rest : List InlineData)
    (hgen : generate (build_contents refs u) = Except.ok parts)
    (hparts : image_parts parts = d :: rest) :
    convert_to_notion_style codec true refs generate u
      = { result := Except.ok (process_image_data codec d),
          requests := [build_contents refs u] } := by
  unfold convert_to_notion_style
  simp only [Bool.true_eq_false, if_false, hgen, hparts]

/-- Converter evaluation: an upstream failure is re-raised. -/
theorem convert_result_raise (codec : PILCodec) (refs : List Img)
    (generate : List ModelContent → Except String (List Part)) (u : Img)
    (e : String)
    (hgen : generate (build_contents refs u) = Except.error e) :
    convert_to_notion_style codec true refs generate u
      = { result := Except.error e, requests := [build_contents refs u] } := by
  unfold convert_to_notion_style
  simp only [Bool.true_eq_false, if_false, hgen]

/-- Handler evaluation: once a valid upload has passed all checks and
decoded, the response is determined by the converter's outcome. -/
theorem convert_image_processed (codec : PILCodec) (st : ServerState)
    (generate : List ModelContent → Except String (List Part))
    (ts : String) (f : FileUpload) (ui : Img)
    (hinit : st.client = true)
    (hext : allowed_file f.filename = true)
    (hsize : f.content.length ≤ MAX_FILE_SIZE)
    (hopen : codec.openImage f.content = Except.ok ui) :
    convert_image codec st generate ts (some f)
      = match (convert_to_notion_style codec true st.reference_images generate (codec.toRGB ui)).result with
        | Except.error e =>
          { status := 500, body := RespBody.error ("Error processing image: " ++ e),
            requests := (convert_to_notion_style codec true st.reference_images generate (codec.toRGB ui)).requests,
            saved := none, finalRefs := st.reference_images }
        | Except.ok none =>
          { status := 500, body := RespBody.error "Failed to generate avatar",
            requests := (convert_to_notion_style codec true st.reference_images generate (codec.toRGB ui)).requests,
            saved := none, finalRefs := st.reference_images }
        | Except.ok (some generated) =>
          { status := 200,
            body := RespBody.success (output_filename ts) ("/outputs/" ++ output_filename ts) "image/png",
            requests := (convert_to_notion_style codec true st.reference_images generate (codec.toRGB ui)).requests,
            saved := some (output_filename ts, codec.savePNG generated),
            finalRefs := st.reference_images } := by
  have hn := filename_ne_empty_of_allowed f.filename hext
  unfold convert_image
  simp only [hinit, Bool.true_eq_false, if_false]
  rw [if_neg hn, hext]
  simp only [Bool.true_eq_false, if_false]
  rw [if_neg (Nat.not_lt.mpr hsize), hopen]

/-- The no-image 500 body differs from every transport-failure 500
body. -/
theorem processing_msg_ne (e : String) :
    ¬ RespBody.error ("Error processing image: " ++ e)
        = RespBody.error "Failed to generate avatar" := by
  intro h
  have h1 : "Error processing image: " ++ e = "Failed to generate avatar" := by
    injection h
  have h2 : ("Error processing image: ").data ++ e.data
      = ("Failed to generate avatar").data := by
    rw [← String.data_append, h1]
  have h3 : ("Error processing image: ").data <+: ("Failed to generate avatar").data := by
    rw [← h2]
    exact List.prefix_append _ _
  exact absurd h3 (by decide)

/-- C5: a successful upstream response with no inline image payload
makes the converter return no result (it does not raise), and /convert
answers it with a 500 whose body "Failed to generate avatar" differs
from the 500 body "Error processing image: ..." produced when the
upstream call itself raises. -/
theorem text_only_response_distinct (codec : PILCodec) (st : ServerState)
    (generate generateRaise : List ModelContent → Except String (List Part))
    (ts : String) (f : FileUpload) (ui : Img) (parts : List Part) (e : String)
    (hinit : st.client = true)
    (hext : allowed_file f.filename = true)
    (hsize : f.content.length ≤ MAX_FILE_SIZE)
    (hopen : codec.openImage f.content = Except.ok ui)
    (hgen : generate (build_contents st.reference_images (codec.toRGB ui)) = Except.ok parts)
    (hparts : image_parts parts = [])
    (hraise : generateRaise (build_contents st.reference_images (codec.toRGB ui)) = Except.error e) :
    (convert_to_notion_style codec true st.reference_images generate (codec.toRGB ui)).result
      = Except.ok none ∧
    (convert_image codec st generate ts (some f)).status = 500 ∧
    (convert_image codec st generate ts (some f)).body
      = RespBody.error "Failed to generate avatar" ∧
    (convert_image codec st generateRaise ts (some f)).status = 500 ∧
    (convert_image codec st generateRaise ts (some f)).body
      = RespBody.error ("Error processing image: " ++ e) ∧
    ¬ (convert_image codec st generate ts (some f)).body
        = (convert_image codec st generateRaise ts (some f)).body := by
  have hc1 := convert_result_no_parts codec st.reference_images generate (codec.toRGB ui) parts hgen hparts
  have hc2 := convert_result_raise codec st.reference_images generateRaise (codec.toRGB ui) e hraise
  have hp1 := convert_image_processed codec st generate ts f ui hinit hext hsize hopen
  have hp2 := convert_image_processed codec st generateRaise ts f ui hinit hext hsize hopen
  rw [hc1] at hp1
  rw [hc2] at hp2
  refine ⟨by rw [hc1], by rw [hp1], by rw [hp1], by rw [hp2], by rw [hp2], ?_⟩
  rw [hp1, hp2]
  intro h
  exact processing_msg_ne e h.symm

/-- Witness for C5: the model answers with commentary text only, versus
an upstream exception "upstream timeout". -/
theorem text_only_response_distinct_witness :
    (convert_image idCodec { client := true, reference_images := [] }
        (constResponse [{ inline_data := none, text := some "I cannot do that" }])
        "ts" (some { filename := "a.png", content := [0] })).body
      = RespBody.error "Failed to generate avatar" ∧
    (convert_image idCodec { client := true, reference_images := [] }
        (failResponse "upstream timeout")
        "ts" (some { filename := "a.png", content := [0] })).body
      = RespBody.error ("Error processing image: " ++ "upstream timeout") :=
  ⟨(text_only_response_distinct idCodec { client := true, reference_images := [] }
      (constResponse [{ inline_data := none, text := some "I cannot do that" }])
      (failResponse "upstream timeout") "ts" { filename := "a.png", content := [0] }
      [0] [{ inline_data := none, text := some "I cannot do that" }] "upstream timeout"
      rfl (by decide) (by decide) rfl rfl (by decide) rfl).2.2.1,
   (text_only_response_distinct idCodec { client := true, reference_images := [] }
      (constResponse [{ inline_data := none, text := some "I cannot do that" }])
      (failResponse "upstream timeout") "ts" { filename := "a.png", content := [0] }
      [0] [{ inline_data := none, text := some "I cannot do that" }] "upstream timeout"
      rfl (by decide) (by decide) rfl rfl (by decide) rfl).2.2.2.2.1⟩

/-- A PIL behaviour where the decoded pixel buffer is the payload body
and the PNG encoder emits the signature byte 137 before the pixel data:
`Image.open` followed by `save(..., 'PNG')` runs an encoder over the
decoded image rather than copying the payload bytes, so the written
container need not reproduce them. -/
def reencodeCodec : PILCodec :=
  { openImage := fun b => Except.ok b,
    savePNG := fun img => 137 :: img,
    toRGB := fun img => img }

/-- A response with exactly one inline payload, the bytes [1, 2, 3]. -/
def singleBinParts : List Part :=
  [{ inline_data := some (InlineData.bin [1, 2, 3]), text := none }]

/-- C2 counterexample: under `reencodeCodec` a successful request whose
single upstream payload is the bytes [1, 2, 3] succeeds with status 200
but writes the file bytes [137, 1, 2, 3] — the file at `filePath` is not
byte-identical to the decoded payload, because the handler re-encodes
the decoded image as PNG instead of copying the payload. -/
theorem saved_file_not_payload :
    (convert_image reencodeCodec { client := true, reference_images := [] }
        (constResponse singleBinParts) "20240101_000000"
        (some { filename := "a.png", content := [1] })).status = 200 ∧
    (convert_image reencodeCodec { client := true, reference_images := [] }
        (constResponse singleBinParts) "20240101_000000"
        (some { filename := "a.png", content := [1] })).saved
      = some (output_filename "20240101_000000", [137, 1, 2, 3]) ∧
    ¬ (convert_image reencodeCodec { client := true, reference_images := [] }
        (constResponse singleBinParts) "20240101_000000"
        (some { filename := "a.png", content := [1] })).saved
      = some (output_filename "20240101_000000", [1, 2, 3]) := by decide

/-- C2 amended: for a successful upstream response with exactly one
inline payload, the bytes the converter extracts are the decoded payload
(binary taken directly, string base64-decoded), its result is the image
PIL decodes from them, the request succeeds with mimeType "image/png",
and the file written at the returned path is the PNG re-encoding of that
decoded image (byte-identical to the payload only when re-encoding
reproduces it). -/
theorem single_payload_roundtrip (codec : PILCodec) (st : ServerState)
    (generate : List ModelContent → Except String (List Part))
    (ts : String) (f : FileUpload) (ui : Img)
    (parts : List Part) (d : InlineData) (b : Bytes) (img : Img)
    (hinit : st.client = true)
    (hext : allowed_file f.filename = true)
    (hsize : f.content.length ≤ MAX_FILE_SIZE)
    (hopen : codec.openImage f.content = Except.ok ui)
    (hgen : generate (build_contents st.reference_images (codec.toRGB ui)) = Except.ok parts)
    (hparts : image_parts parts = [d])
    (hdec : decode_image_data d = some b)
    (himg : codec.openImage b = Except.ok img) :
    extract_image_bytes parts = some b ∧
    (convert_to_notion_style codec true st.reference_images generate (codec.toRGB ui)).result
      = Except.ok (some img) ∧
    convert_image codec st generate ts (some f)
      = { status := 200,
          body := RespBody.success (output_filename ts)
            ("/outputs/" ++ output_filename ts) "image/png",
          requests := [build_contents st.reference_images (codec.toRGB ui)],
          saved := some (output_filename ts, codec.savePNG img),
          finalRefs := st.reference_images } := by
  have hproc : process_image_data codec d = some img := by
    simp [process_image_data, hdec, himg]
  have hconv := convert_result_first codec st.reference_images generate
    (codec.toRGB ui) parts d [] hgen hparts
  rw [hproc] at hconv
  have hp := convert_image_processed codec st generate ts f ui hinit hext hsize hopen
  rw [hconv] at hp
  exact ⟨by simp [extract_image_bytes, hparts, hdec], by rw [hconv], hp⟩

/-- Witness for C2 amended: a single binary payload [1, 2, 3] under the
identity PIL behaviour. -/
theorem single_payload_roundtrip_witness :
    extract_image_bytes singleBinParts = some [1, 2, 3] ∧
    convert_image idCodec { client := true, reference_images := [] }
        (constResponse singleBinParts) "20240101_000000"
        (some { filename := "a.png", content := [1] })
      = { status := 200,
          body := RespBody.success (output_filename "20240101_000000")
            ("/outputs/" ++ output_filename "20240101_000000") "image/png",
          requests := [build_contents [] [1]],
          saved := some (output_filename "20240101_000000", [1, 2, 3]),
          finalRefs := [] } :=
  ⟨(single_payload_roundtrip idCodec { client := true, reference_images := [] }
      (constResponse singleBinParts) "20240101_000000"
      { filename := "a.png", content := [1] } [1] singleBinParts
      (InlineData.bin [1, 2, 3]) [1, 2, 3] [1, 2, 3]
      rfl (by decide) (by decide) rfl rfl (by decide) rfl rfl).1,
   (single_payload_roundtrip idCodec { client := true, reference_images := [] }
      (constResponse singleBinParts) "20240101_000000"
      { filename := "a.png", content := [1] } [1] singleBinParts
      (InlineData.bin [1, 2, 3]) [1, 2, 3] [1, 2, 3]
      rfl (by decide) (by decide) rfl rfl (by decide) rfl rfl).2.2⟩

/-- The handler never writes the reference-image global: its final
reference list is the one it started with, in every branch. -/
theorem convert_image_finalRefs (codec : PILCodec) (st : ServerState)
    (generate : List ModelContent → Except String (List Part))
    (ts : String) (req : Option FileUpload) :
    (convert_image codec st generate ts req).finalRefs = st.reference_images := by
  unfold convert_image
  repeat' split
  all_goals try rfl
  all_goals dsimp only
  all_goals split <;> rfl

/-- The filesystem with the first reference file missing and the other
two present. -/
def missingRefFs : String → Option Img :=
  fun p => if p = "reference-avatar-2.png" then none else some [0]

/-- A filesystem on which every reference file loads. -/
def allRefFs : String → Option Img := fun _ => some [0]

/-- C8 counterexample: when one of the three fixed reference files is
missing, startup loads only 2 reference images (the loader skips missing
files with a warning and the server still runs), so the loaded set does
not always consist of exactly 3 images. -/
theorem reference_count_not_three :
    (load_reference_images idCodec missingRefFs).length = 2 ∧
    ¬ (load_reference_images idCodec missingRefFs).length = 3 := by decide

/-- C8 amended: the reference set is loaded once at startup from 3 fixed
paths — exactly 3 images when all three files load — and no request
mutates it: the handler leaves the set unchanged and the converter reads
the very set held in the server state on every request. -/
theorem reference_set_stable (codec : PILCodec) (fs : String → Option Img)
    (st : ServerState)
    (generate : List ModelContent → Except String (List Part))
    (ts : String) (req : Option FileUpload) (u : Img)
    (hall : ∀ p ∈ ref_paths, (fs p).isSome = true) :
    ref_paths.length = 3 ∧
    (load_reference_images codec fs).length = 3 ∧
    (convert_image codec st generate ts req).finalRefs = st.reference_images ∧
    (convert_to_notion_style codec true st.reference_images generate u).requests
      = [build_contents st.reference_images u] := by
  refine ⟨rfl, ?_, convert_image_finalRefs codec st generate ts req, ?_⟩
  · have h2 := hall "reference-avatar-2.png" (by simp [ref_paths])
    have h3 := hall "reference-avatar-3.png" (by simp [ref_paths])
    have h6 := hall "reference-image-6.png" (by simp [ref_paths])
    obtain ⟨i2, e2⟩ := Option.isSome_iff_exists.mp h2
    obtain ⟨i3, e3⟩ := Option.isSome_iff_exists.mp h3
    obtain ⟨i6, e6⟩ := Option.isSome_iff_exists.mp h6
    simp [load_reference_images, ref_paths, e2, e3, e6]
  · unfold convert_to_notion_style
    simp only [Bool.true_eq_false, if_false]
    cases generate (build_contents st.reference_images u) with
    | error e => rfl
    | ok parts => cases h : image_parts parts <;> simp only [h]

/-- Witness for C8 amended: all three reference files load, and a
request leaves a one-element reference set untouched. -/
theorem reference_set_stable_witness :
    (load_reference_images idCodec allRefFs).length = 3 ∧
    (convert_image idCodec { client := true, reference_images := [[1]] }
        (constResponse []) "ts" none).finalRefs = [[1]] :=
  ⟨(reference_set_stable idCodec allRefFs { client := true, reference_images := [[1]] }
      (constResponse []) "ts" none [0] (fun _ _ => rfl)).2.1,
   (reference_set_stable idCodec allRefFs { client := true, reference_images := [[1]] }
      (constResponse []) "ts" none [0] (fun _ _ => rfl)).2.2.1⟩

end NotionAvatar
